import Mathlib

/-!
Verification of the heartlib web backend's job orchestration core
(`src/web/backend/services/pipeline_service.py` and
`src/web/backend/routers/generation.py`), shallowly embedded in Lean.

The external inference engine (model loading, per-frame token generation,
decoding, file persistence) is treated as an opaque collaborator whose
fallible steps are modelled as `Except String` values supplied as inputs.
The executor is modelled as a pure function that returns the final job
state together with the ordered trace of observable events (status writes,
progress notifications, admission-gate release) and the exception, if any,
that escaped the executor uncaught.
-/

namespace Heartlib

/-- `JobStatus` from `pipeline_service.py`. -/
inductive JobStatus where
  | queued
  | loading
  | generating
  | completed
  | failed
  deriving DecidableEq, Repr

/-- Terminal statuses: `COMPLETED` and `FAILED`. -/
def JobStatus.isTerminal : JobStatus → Bool
  | JobStatus.completed => true
  | JobStatus.failed => true
  | _ => false

/-- `GenerationJob` dataclass from `pipeline_service.py`.  Floats are
modelled as rationals; `datetime` timestamps as abstract `Option Nat`
instants (`none` = not yet stamped). -/
structure GenerationJob where
  job_id : String
  lyrics : String
  tags : String
  temperature : ℚ
  topk : ℕ
  cfg_scale : ℚ
  max_audio_length_ms : ℕ
  status : JobStatus
  progress : ℚ
  current_frame : ℕ
  total_frames : ℕ
  output_path : Option String
  error : Option String
  started_at : Option ℕ
  completed_at : Option ℕ
  deriving DecidableEq, Repr

/-- `PipelineService.create_job`: builds a fresh job in `QUEUED` state with
zeroed progress fields and unset result fields. -/
def create_job (job_id lyrics tags : String) (temperature : ℚ) (topk : ℕ)
    (cfg_scale : ℚ) (max_audio_length_ms : ℕ) : GenerationJob :=
  { job_id := job_id
    lyrics := lyrics
    tags := tags
    temperature := temperature
    topk := topk
    cfg_scale := cfg_scale
    max_audio_length_ms := max_audio_length_ms
    status := JobStatus.queued
    progress := 0
    current_frame := 0
    total_frames := 0
    output_path := none
    error := none
    started_at := none
    completed_at := none }

/-- The opaque inference-engine collaborator.  Each field models one
fallible external step of `_generate_with_progress` / `_forward_with_progress`:
`warm_up` is `load_pipeline`, `preprocess` is `_sanitize_parameters` +
`preprocess`, `first_frame` is the unconditional seed `generate_frame`,
`gen_frame i` is the `generate_frame` call of loop iteration `i` (returning
whether an end-of-sequence token was produced), `decode` is
`audio_codec.detokenize`, and `save` is `torchaudio.save`. -/
structure Collaborator where
  warm_up : Except String Unit
  preprocess : Except String Unit
  first_frame : Except String Unit
  gen_frame : ℕ → Except String Bool
  decode : Except String Unit
  save : Except String Unit

/-- Observable events emitted by the executor, in program order:
a write to `job.status`, a call to `_notify_progress` (carrying the job
snapshot at that moment), and the release of the admission slot
(`self._current_job = None`). -/
inductive Event where
  | setStatus (s : JobStatus)
  | notify (snap : GenerationJob)
  | release
  deriving DecidableEq, Repr

/-- The body of the progress-updating step of the generation loop:
`job.current_frame = i + 1; job.progress = (i + 1) / max_audio_frames`. -/
def stepJob (j : GenerationJob) (m i : ℕ) : GenerationJob :=
  { j with current_frame := i + 1, progress := ((i : ℚ) + 1) / (m : ℚ) }

/-- The `for i in range(max_audio_frames)` loop of `_forward_with_progress`,
as structural recursion on the remaining iteration count (`fuel`), starting
from loop index `i`.  Returns the job state on loop exit, the notification
events emitted, and the exception (if the collaborator raised mid-loop,
leaving the job state as of that iteration). -/
def forwardIter (c : Collaborator) (m : ℕ) :
    ℕ → ℕ → GenerationJob → GenerationJob × List Event × Option String
  | 0, _, j => (j, [], none)
  | fuel + 1, i, j =>
    match c.gen_frame i with
    | Except.error e => (j, [], some e)
    | Except.ok true => (j, [], none)
    | Except.ok false =>
      let j2 := stepJob j m i
      let r := forwardIter c m fuel (i + 1) j2
      (r.1, Event.notify j2 :: r.2.1, r.2.2)

/-- `PipelineService._forward_with_progress`: seed frame, the progress loop
over `max_audio_frames` iterations, then decoding. -/
def forward_with_progress (c : Collaborator) (j : GenerationJob) (m : ℕ) :
    GenerationJob × List Event × Option String :=
  match c.first_frame with
  | Except.error e => (j, [], some e)
  | Except.ok _ =>
    let r := forwardIter c m m 0 j
    match r.2.2 with
    | some e => (r.1, r.2.1, some e)
    | none =>
      match c.decode with
      | Except.error e => (r.1, r.2.1, some e)
      | Except.ok _ => (r.1, r.2.1, none)

/-- Result of one executor run: the final job state, the ordered event
trace, and the exception that escaped the executor uncaught (only possible
from `load_pipeline`, which the source calls outside its `try` block). -/
structure ExecResult where
  job : GenerationJob
  trace : List Event
  escaped : Option String
  deriving DecidableEq, Repr

/-- `PipelineService._generate_with_progress`.  Faithful to the source:
`load_pipeline()` is invoked outside the `try` block, so a warm-up error
propagates out of the executor with the job left in `LOADING`, no error
recorded, and no release of the admission slot. -/
def generate_with_progress (c : Collaborator) (job0 : GenerationJob) : ExecResult :=
  let j1 : GenerationJob := { job0 with status := JobStatus.loading, started_at := some 0 }
  match c.warm_up with
  | Except.error e =>
    ⟨j1, [Event.setStatus JobStatus.loading, Event.notify j1], some e⟩
  | Except.ok _ =>
    let j2 : GenerationJob := { j1 with status := JobStatus.generating }
    let pre : List Event :=
      [Event.setStatus JobStatus.loading, Event.notify j1,
       Event.setStatus JobStatus.generating, Event.notify j2]
    let inner : GenerationJob × List Event × Option String :=
      match c.preprocess with
      | Except.error e => (j2, [], some e)
      | Except.ok _ =>
        let m := j2.max_audio_length_ms / 80
        forward_with_progress c { j2 with total_frames := m } m
    match inner.2.2 with
    | some e =>
      let jf := { inner.1 with
        status := JobStatus.failed,
        error := some e,
        completed_at := some 1 }
      ⟨jf, pre ++ inner.2.1 ++
           [Event.setStatus JobStatus.failed, Event.notify jf, Event.release], none⟩
    | none =>
      match c.save with
      | Except.error e =>
        let jf := { inner.1 with
          status := JobStatus.failed,
          error := some e,
          completed_at := some 1 }
        ⟨jf, pre ++ inner.2.1 ++
             [Event.setStatus JobStatus.failed, Event.notify jf, Event.release], none⟩
      | Except.ok _ =>
        let j5 := { inner.1 with
          output_path := some ("/output/" ++ job0.job_id ++ ".mp3"),
          status := JobStatus.completed,
          progress := 1,
          completed_at := some 1 }
        ⟨j5, pre ++ inner.2.1 ++
             [Event.setStatus JobStatus.completed, Event.notify j5, Event.release], none⟩

/-! ### Named intermediate states of an executor run (used to characterize
`generate_with_progress` in the lemmas below) -/

/-- `max_audio_frames = max_audio_length_ms // 80`. -/
def budget (j0 : GenerationJob) : ℕ := j0.max_audio_length_ms / 80

/-- Job state after `status = LOADING; started_at = now`. -/
def jAfterLoad (j0 : GenerationJob) : GenerationJob :=
  { j0 with status := JobStatus.loading, started_at := some 0 }

/-- Job state after `status = GENERATING`. -/
def jAfterGen (j0 : GenerationJob) : GenerationJob :=
  { jAfterLoad j0 with status := JobStatus.generating }

/-- Job state after `total_frames` is resolved from the duration budget. -/
def jBudget (j0 : GenerationJob) : GenerationJob :=
  { jAfterGen j0 with total_frames := budget j0 }

/-- Job state after `t` successful loop iterations. -/
def loopJob (j0 : GenerationJob) (t : ℕ) : GenerationJob :=
  if t = 0 then jBudget j0 else stepJob (jBudget j0) (budget j0) (t - 1)

/-- The notifications emitted by `t` successful loop iterations. -/
def loopEvs (j0 : GenerationJob) (t : ℕ) : List Event :=
  (List.range' 0 t).map (fun k => Event.notify (stepJob (jBudget j0) (budget j0) k))

/-- The events every non-escaping run emits before the generation loop. -/
def preEvs (j0 : GenerationJob) : List Event :=
  [Event.setStatus JobStatus.loading, Event.notify (jAfterLoad j0),
   Event.setStatus JobStatus.generating, Event.notify (jAfterGen j0)]

/-- Terminal `FAILED` job built from the state `j` at the point of failure. -/
def jFail (j : GenerationJob) (e : String) : GenerationJob :=
  { j with status := JobStatus.failed, error := some e, completed_at := some 1 }

/-- Terminal `COMPLETED` job built from the state `j` at loop exit. -/
def jDone (j : GenerationJob) (pid : String) : GenerationJob :=
  { j with
    output_path := some ("/output/" ++ pid ++ ".mp3"),
    status := JobStatus.completed,
    progress := 1,
    completed_at := some 1 }

/-- Full executor result of a failing (but non-escaping) run. -/
def failRes (j0 core : GenerationJob) (evs : List Event) (e : String) : ExecResult :=
  ⟨jFail core e,
   preEvs j0 ++ evs ++
     [Event.setStatus JobStatus.failed, Event.notify (jFail core e), Event.release],
   none⟩

/-- Full executor result of a successful run. -/
def doneRes (j0 core : GenerationJob) (evs : List Event) : ExecResult :=
  ⟨jDone core j0.job_id,
   preEvs j0 ++ evs ++
     [Event.setStatus JobStatus.completed, Event.notify (jDone core j0.job_id),
      Event.release],
   none⟩

/-- The `progress` values carried by the notification events of a trace, in
delivery order. -/
def progressValues (tr : List Event) : List ℚ :=
  tr.filterMap (fun ev =>
    match ev with
    | Event.notify s => some s.progress
    | _ => none)

/-! ### Progress notifier (`_progress_callbacks` dict and `_notify_progress`) -/

/-- An observer callback registered with the notifier.  It receives the job
snapshot and either returns the record it stored (`ok`) or raises (`error`). -/
def Callback := GenerationJob → Except String String

/-- The `self._progress_callbacks : dict[str, list[Callable]]` map, modelled
as a total function with `[]` for absent keys. -/
def CallbackMap := String → List Callback

/-- `PipelineService.register_progress_callback`: appends the callback to the
job's list (creating the entry when absent). -/
def register_progress_callback (m : CallbackMap) (job_id : String) (cb : Callback) :
    CallbackMap :=
  fun k => if k = job_id then m job_id ++ [cb] else m k

/-- `PipelineService.unregister_progress_callbacks`: `dict.pop(job_id, None)`,
i.e. removes EVERY callback registered for `job_id`. -/
def unregister_progress_callbacks (m : CallbackMap) (job_id : String) : CallbackMap :=
  fun k => if k = job_id then [] else m k

/-- Number of observers currently registered for a job id. -/
def subscriberCount (m : CallbackMap) (job_id : String) : ℕ :=
  (m job_id).length

/-- One iteration of the `_notify_progress` loop: `try: callback(job)
except Exception: pass`.  A raising callback is caught and its delivery
discarded (`none`); a succeeding callback's stored record is kept. -/
def notifyOne (j : GenerationJob) (cb : Callback) : Option String :=
  match cb j with
  | Except.ok r => some r
  | Except.error _ => none

/-- `PipelineService._notify_progress`: looks up the job and delivers the
snapshot to every callback registered for the id, catching each callback's
exception individually.  Returns the per-observer delivery outcomes, in
registration order. -/
def notify_progress (jobs : String → Option GenerationJob) (m : CallbackMap)
    (job_id : String) : List (Option String) :=
  match jobs job_id with
  | none => []
  | some job => (m job_id).map (fun cb => notifyOne job cb)

/-! ### Stream bridge (`stream_progress` in `routers/generation.py`) -/

/-- `_job_to_dict`: the snapshot record serialized into each SSE data event. -/
structure JobDict where
  job_id : String
  status : JobStatus
  progress : ℚ
  current_frame : ℕ
  total_frames : ℕ
  output_path : Option String
  error : Option String
  deriving DecidableEq, Repr

/-- `_job_to_dict` from `routers/generation.py`. -/
def job_to_dict (j : GenerationJob) : JobDict :=
  ⟨j.job_id, j.status, j.progress, j.current_frame, j.total_frames,
   j.output_path, j.error⟩

/-- One outbound record of the SSE stream: a `data:` event carrying a job
snapshot, or the `: keepalive` comment record. -/
inductive SSEvent where
  | data (snap : JobDict)
  | keepalive
  deriving DecidableEq, Repr

/-- What `await asyncio.wait_for(queue.get(), timeout=30.0)` yields in one
round of the stream loop: a queued snapshot delivery, or a timeout. -/
inductive WaitOutcome where
  | update (j : GenerationJob)
  | timeout

/-- The `while True` loop of the SSE `event_generator`, driven by a finite
schedule of wait outcomes (an exhausted schedule models the client
disconnecting). -/
def streamLoop (jobs : String → Option GenerationJob) (job_id : String) :
    List WaitOutcome → List SSEvent
  | [] => []
  | WaitOutcome.update uj :: rest =>
    SSEvent.data (job_to_dict uj) ::
      (if uj.status.isTerminal then [] else streamLoop jobs job_id rest)
  | WaitOutcome.timeout :: rest =>
    SSEvent.keepalive ::
      (match jobs job_id with
       | none => []
       | some cj =>
         if cj.status.isTerminal then [SSEvent.data (job_to_dict cj)]
         else streamLoop jobs job_id rest)

/-- `stream_progress` route: 404 before any event when the id is unknown;
otherwise the generator registers its queue callback, emits the current
snapshot first, ends immediately when that snapshot is terminal, else runs
the wait loop; in every case the `finally` block pops the job's callbacks.
Returns the emitted events together with the callback map after close. -/
def stream_progress (jobs : String → Option GenerationJob) (m : CallbackMap)
    (job_id : String) (cb : Callback) (waits : List WaitOutcome) :
    Except ℕ (List SSEvent × CallbackMap) :=
  match jobs job_id with
  | none => Except.error 404
  | some job =>
    let m1 := register_progress_callback m job_id cb
    let first := SSEvent.data (job_to_dict job)
    if job.status.isTerminal then
      Except.ok ([first], unregister_progress_callbacks m1 job_id)
    else
      Except.ok (first :: streamLoop jobs job_id waits,
                 unregister_progress_callbacks m1 job_id)

/-! ### Creation route (`start_generation` in `routers/generation.py`) -/

/-- The slice of global service state the creation route touches: the job
registry (`self._jobs`, insertion-ordered) and the admission slot
(`self._current_job`). -/
structure ServiceState where
  jobs : List (String × GenerationJob)
  current_job : Option String
  deriving Repr

/-- The `start_generation` route handler: rejects with HTTP 429 while the
admission slot is occupied, before constructing any job; otherwise creates
and stores the job and schedules the background task. -/
def start_generation_route (st : ServiceState) (newId lyrics tags : String)
    (temperature : ℚ) (topk : ℕ) (cfg_scale : ℚ) (max_audio_length_ms : ℕ) :
    ServiceState × Except ℕ String :=
  if st.current_job.isSome then (st, Except.error 429)
  else
    let job := create_job newId lyrics tags temperature topk cfg_scale
      max_audio_length_ms
    ({ st with jobs := st.jobs ++ [(newId, job)] }, Except.ok newId)

/-! ### Admission interleaving model (two concurrent creation requests)

The request path consists of two event-loop turns, each of which runs with
no suspension point inside it and is therefore atomic under asyncio's
cooperative scheduling:
* the router turn — `start_generation` in `routers/generation.py`: check
  `_current_job`, reject with 429, or create the job and schedule the
  background task;
* the task turn — the prefix of `PipelineService.start_generation` before
  its first `await`: re-check `_current_job`, raise `RuntimeError` if set,
  else store the job id in the slot.
-/

/-- Per-request observable state: the HTTP response (`none` = not yet sent,
`some true` = 200 accepted, `some false` = 429 capacity error), whether a
job was created in the registry, and the background task's outcome
(`some true` = slot acquired, `some false` = `RuntimeError` raised). -/
structure ReqState where
  resp : Option Bool
  jobCreated : Bool
  outcome : Option Bool
  deriving DecidableEq, Repr

/-- Shared state for the two-request admission scenario: the slot
(`some false` = request A's job id, `some true` = request B's) plus both
request states. -/
structure GateSys where
  slot : Option Bool
  reqA : ReqState
  reqB : ReqState
  deriving DecidableEq, Repr

/-- One atomic event-loop turn of either request. -/
inductive GateLabel where
  | routerA
  | routerB
  | taskA
  | taskB
  deriving DecidableEq, Repr

/-- No job is active and neither request has started. -/
def gateInit : GateSys := ⟨none, ⟨none, false, none⟩, ⟨none, false, none⟩⟩

/-- The router turn: a no-op if this request already responded; 429 when the
slot is occupied; otherwise create the job and answer 200. -/
def routerRun (slot : Option Bool) (r : ReqState) : ReqState :=
  if r.resp.isSome then r
  else if slot.isSome then { r with resp := some false }
  else { r with resp := some true, jobCreated := true }

/-- The background-task turn: enabled only once the router accepted and the
task has not yet run; raises `RuntimeError` when the slot is occupied, else
acquires it. -/
def taskRun (who : Bool) (slot : Option Bool) (r : ReqState) :
    Option Bool × ReqState :=
  if r.resp = some true ∧ r.outcome = none then
    if slot.isSome then (slot, { r with outcome := some false })
    else (some who, { r with outcome := some true })
  else (slot, r)

/-- Execute one labelled turn. -/
def gateStep : GateLabel → GateSys → GateSys
  | GateLabel.routerA, s => { s with reqA := routerRun s.slot s.reqA }
  | GateLabel.routerB, s => { s with reqB := routerRun s.slot s.reqB }
  | GateLabel.taskA, s =>
    let p := taskRun false s.slot s.reqA
    { s with slot := p.1, reqA := p.2 }
  | GateLabel.taskB, s =>
    let p := taskRun true s.slot s.reqB
    { s with slot := p.1, reqB := p.2 }

/-- Run a schedule (an arbitrary interleaving of turns). -/
def gateRun (ls : List GateLabel) (s : GateSys) : GateSys :=
  ls.foldl (fun s l => gateStep l s) s

/-- Both requests ran to completion: each has an HTTP response, and each
accepted request's background task has finished its acquire attempt. -/
def gateComplete (s : GateSys) : Prop :=
  s.reqA.resp.isSome = true ∧ s.reqB.resp.isSome = true ∧
  (s.reqA.resp = some true → s.reqA.outcome.isSome = true) ∧
  (s.reqB.resp = some true → s.reqB.outcome.isSome = true)

instance : DecidablePred gateComplete := by
  unfold gateComplete
  infer_instance

/-- Reachability invariant of the two-request admission scenario. -/
def gateInv (s : GateSys) : Prop :=
  (s.slot = some false ↔ s.reqA.outcome = some true) ∧
  (s.slot = some true ↔ s.reqB.outcome = some true) ∧
  (s.reqA.jobCreated = true ↔ s.reqA.resp = some true) ∧
  (s.reqB.jobCreated = true ↔ s.reqB.resp = some true) ∧
  (s.reqA.outcome.isSome = true → s.reqA.resp = some true) ∧
  (s.reqB.outcome.isSome = true → s.reqB.resp = some true) ∧
  (s.reqA.resp = some false → s.slot.isSome = true ∧ s.reqA.outcome = none) ∧
  (s.reqB.resp = some false → s.slot.isSome = true ∧ s.reqB.outcome = none) ∧
  (s.reqA.outcome = some false → s.slot.isSome = true) ∧
  (s.reqB.outcome = some false → s.slot.isSome = true)

/-- The fate of the request that did not acquire the slot: rejected at the
router with the 429 capacity error (no job created, no task scheduled), or
accepted with a 200 response and later stopped inside the background task
by the `RuntimeError`, its job left in the registry. -/
def gateLoser (r : ReqState) : Prop :=
  (r.resp = some false ∧ r.jobCreated = false ∧ r.outcome = none) ∨
  (r.resp = some true ∧ r.jobCreated = true ∧ r.outcome = some false)

/-! ### Concrete fixtures used by witnesses and counterexamples -/

/-- The interleaving in which both router checks run before either
background task gets scheduled onto the event loop. -/
def bothRoutersFirst : List GateLabel :=
  [GateLabel.routerA, GateLabel.routerB, GateLabel.taskA, GateLabel.taskB]

/-- Collaborator whose warm-up (`load_pipeline`) raises; all later steps
would succeed. -/
def warmErrCollab : Collaborator :=
  { warm_up := Except.error "boom"
    preprocess := Except.ok ()
    first_frame := Except.ok ()
    gen_frame := fun _ => Except.ok false
    decode := Except.ok ()
    save := Except.ok () }

/-- Fully successful collaborator that signals end-of-sequence from frame
`n` onwards. -/
def eosAt (n : ℕ) : Collaborator :=
  { warm_up := Except.ok ()
    preprocess := Except.ok ()
    first_frame := Except.ok ()
    gen_frame := fun i => Except.ok (decide (n ≤ i))
    decode := Except.ok ()
    save := Except.ok () }

/-- The job of the end-of-sequence scenario: `max_duration_ms = 80000`. -/
def c7Job : GenerationJob := create_job "j-eos" "" "" 1 50 (3 / 2) 80000

/-- A small job used by witnesses (unit budget of one frame). -/
def tinyJob : GenerationJob := create_job "j-tiny" "" "" 1 50 (3 / 2) 80

/-- An observer callback that always raises. -/
def cbBoom : Callback := fun _ => Except.error "observer crashed"

/-- An observer callback that records the snapshot's job id. -/
def cbOk : Callback := fun j => Except.ok j.job_id

/-- A callback map with one pre-existing observer for job `"watch"`. -/
def oneWatcher : CallbackMap := fun k => if k = "watch" then [cbOk] else []

/-- A callback map with a raising observer followed by a succeeding one,
both registered for job `"watch"`. -/
def twoObservers : CallbackMap := fun k => if k = "watch" then [cbBoom, cbOk] else []

/-- A registry holding one job, already completed. -/
def doneJob : GenerationJob :=
  { create_job "done" "" "" 1 50 (3 / 2) 240000 with
    status := JobStatus.completed,
    progress := 1,
    output_path := some "/output/done.mp3" }

/-- Registry lookup function for the fixtures: knows `"watch"` (queued) and
`"done"` (completed). -/
def fixtureJobs : String → Option GenerationJob :=
  fun k =>
    if k = "watch" then some (create_job "watch" "" "" 1 50 (3 / 2) 240000)
    else if k = "done" then some doneJob
    else none

/-! ### Lemmas: admission-gate interleaving model -/

lemma gateInv_init : gateInv gateInit := by
  constructor <;> simp [gateInit]

lemma gateInv_step (l : GateLabel) (s : GateSys) (h : gateInv s) :
    gateInv (gateStep l s) := by
  obtain ⟨slot, ⟨ra, ja, oa⟩, ⟨rb, jb, ob⟩⟩ := s
  cases l <;>
    simp only [gateStep, routerRun, taskRun, gateInv] at h ⊢ <;>
    split_ifs <;> simp_all

lemma gateInv_run (ls : List GateLabel) (s : GateSys) (h : gateInv s) :
    gateInv (gateRun ls s) := by
  induction ls generalizing s with
  | nil => exact h
  | cons l ls ih => exact ih (gateStep l s) (gateInv_step l s h)

lemma gate_at_most_one (s : GateSys) (h : gateInv s) :
    ¬(s.reqA.outcome = some true ∧ s.reqB.outcome = some true) := by
  rintro ⟨ha, hb⟩
  have h1 := h.1.2 ha
  have h2 := h.2.1.2 hb
  rw [h1] at h2
  simp at h2

lemma gate_final (s : GateSys) (h : gateInv s) (hc : gateComplete s) :
    (s.reqA.outcome = some true ∧ gateLoser s.reqB) ∨
    (s.reqB.outcome = some true ∧ gateLoser s.reqA) := by
  obtain ⟨hA, hB, hjA, hjB, hoA, hoB, hfA, hfB, hrA, hrB⟩ := h
  obtain ⟨hcA, hcB, htA, htB⟩ := hc
  by_cases hwin : s.reqA.outcome = some true
  · left
    refine ⟨hwin, ?_⟩
    have hslot : s.slot = some false := hA.2 hwin
    have hbno : s.reqB.outcome ≠ some true := by
      intro hb
      rw [hB.2 hb] at hslot
      simp at hslot
    rcases hrb : s.reqB.resp with _ | b
    · rw [hrb] at hcB; simp at hcB
    · cases b
      · left
        refine ⟨by simp [hrb], ?_, (hfB hrb).2⟩
        have := (hjB.mp).mt
        simp [hrb] at this
        exact this
      · right
        have hob := htB hrb
        rcases hb : s.reqB.outcome with _ | c
        · rw [hb] at hob; simp at hob
        · cases c
          · exact ⟨by simp [hrb], hjB.2 hrb, by simp [hb]⟩
          · exact absurd hb hbno
  · right
    have hano : s.reqA.outcome ≠ some true := hwin
    rcases hra : s.reqA.resp with _ | a
    · rw [hra] at hcA; simp at hcA
    · cases a
      · have hsl := (hfA hra).1
        rcases hs : s.slot with _ | x
        · rw [hs] at hsl; simp at hsl
        · cases x
          · exact absurd (hA.1 hs) hano
          · refine ⟨hB.1 hs, Or.inl ⟨by simp [hra], ?_, (hfA hra).2⟩⟩
            have := (hjA.mp).mt
            simp [hra] at this
            exact this
      · have hoa := htA hra
        rcases ho : s.reqA.outcome with _ | c
        · rw [ho] at hoa; simp at hoa
        · cases c
          · have hsl := hrA ho
            rcases hs : s.slot with _ | x
            · rw [hs] at hsl; simp at hsl
            · cases x
              · exact absurd (hA.1 hs) hano
              · exact ⟨hB.1 hs, Or.inr ⟨by simp [hra], hjA.2 hra, by simp [ho]⟩⟩
          · exact absurd ho hano

/-! ### Lemmas: the executor -/

lemma stepJob_stepJob (j : GenerationJob) (m i k : ℕ) :
    stepJob (stepJob j m i) m k = stepJob j m k := rfl

/-- The generation loop performs some number `t` of successful iterations
(bounded by the remaining fuel), emitting exactly one notification of the
advanced job per iteration, and leaves the job advanced `t` steps. -/
lemma forwardIter_spec (c : Collaborator) (m : ℕ) :
    ∀ (fuel i : ℕ) (j : GenerationJob), ∃ t, t ≤ fuel ∧
      (forwardIter c m fuel i j).2.1 =
        (List.range' i t).map (fun k => Event.notify (stepJob j m k)) ∧
      (forwardIter c m fuel i j).1 =
        (if t = 0 then j else stepJob j m (i + t - 1)) := by
  intro fuel
  induction fuel with
  | zero =>
    intro i j
    exact ⟨0, Nat.le_refl 0, by simp [forwardIter], by simp [forwardIter]⟩
  | succ fuel ih =>
    intro i j
    cases hg : c.gen_frame i with
    | error e =>
      refine ⟨0, Nat.zero_le _, ?_, ?_⟩ <;> simp [forwardIter, hg]
    | ok b =>
      cases b with
      | true =>
        refine ⟨0, Nat.zero_le _, ?_, ?_⟩ <;> simp [forwardIter, hg]
      | false =>
        obtain ⟨t, ht, hev, hj⟩ := ih (i + 1) (stepJob j m i)
        refine ⟨t + 1, Nat.succ_le_succ ht, ?_, ?_⟩
        · simp only [forwardIter, hg, hev, List.range'_succ, List.map_cons]
          all_goals simp [stepJob_stepJob]
        · simp only [forwardIter, hg, hj]
          cases t with
          | zero => simp
          | succ t =>
            have h1 : i + 1 + (t + 1) - 1 = i + (t + 1 + 1) - 1 := by omega
            simp [stepJob_stepJob, h1]

/-- `forward_with_progress` behaves like the loop: `t ≤ m` successful
iterations, the corresponding notifications, the job advanced `t` steps. -/
lemma forward_spec (c : Collaborator) (j : GenerationJob) (m : ℕ) :
    ∃ t, t ≤ m ∧
      (forward_with_progress c j m).2.1 =
        (List.range' 0 t).map (fun k => Event.notify (stepJob j m k)) ∧
      (forward_with_progress c j m).1 =
        (if t = 0 then j else stepJob j m (t - 1)) := by
  cases hf : c.first_frame with
  | error e =>
    exact ⟨0, Nat.zero_le _, by simp [forward_with_progress, hf],
           by simp [forward_with_progress, hf]⟩
  | ok u =>
    obtain ⟨t, ht, hev, hj⟩ := forwardIter_spec c m m 0 j
    refine ⟨t, ht, ?_, ?_⟩ <;>
      (unfold forward_with_progress
       rw [hf]
       cases hx : (forwardIter c m m 0 j).2.2 <;>
         cases hd : c.decode <;>
         simp_all)

/-- After a successful warm-up and preprocessing, the executor is the
generation loop followed by the save step and the terminal bookkeeping. -/
lemma generate_eq (c : Collaborator) (j0 : GenerationJob) (u v : Unit)
    (hw : c.warm_up = Except.ok u) (hp : c.preprocess = Except.ok v) :
    generate_with_progress c j0 =
      match (forward_with_progress c (jBudget j0) (budget j0)).2.2 with
      | some e =>
        failRes j0 (forward_with_progress c (jBudget j0) (budget j0)).1
          (forward_with_progress c (jBudget j0) (budget j0)).2.1 e
      | none =>
        match c.save with
        | Except.error e =>
          failRes j0 (forward_with_progress c (jBudget j0) (budget j0)).1
            (forward_with_progress c (jBudget j0) (budget j0)).2.1 e
        | Except.ok _ =>
          doneRes j0 (forward_with_progress c (jBudget j0) (budget j0)).1
            (forward_with_progress c (jBudget j0) (budget j0)).2.1 := by
  simp only [generate_with_progress, hw, hp]
  rfl

/-- Every run of the executor is one of: an escaped warm-up error leaving
the job in `LOADING`; a preprocessing failure; a failure at or after the
loop with `t` completed iterations; or a successful completion with `t`
completed iterations. -/
lemma gen_spec (c : Collaborator) (j0 : GenerationJob) :
    (∃ e, generate_with_progress c j0 =
       ⟨jAfterLoad j0, [Event.setStatus JobStatus.loading,
                        Event.notify (jAfterLoad j0)], some e⟩)
    ∨ (∃ e, generate_with_progress c j0 = failRes j0 (jAfterGen j0) [] e)
    ∨ (∃ t e, t ≤ budget j0 ∧
         generate_with_progress c j0 = failRes j0 (loopJob j0 t) (loopEvs j0 t) e)
    ∨ (∃ t, t ≤ budget j0 ∧
         generate_with_progress c j0 = doneRes j0 (loopJob j0 t) (loopEvs j0 t)) := by
  cases hw : c.warm_up with
  | error e =>
    left
    exact ⟨e, by simp [generate_with_progress, hw, jAfterLoad]⟩
  | ok u =>
    right
    cases hp : c.preprocess with
    | error e =>
      left
      refine ⟨e, ?_⟩
      simp [generate_with_progress, hw, hp, failRes, preEvs, jAfterLoad, jAfterGen,
            jFail]
    | ok v =>
      right
      rw [generate_eq c j0 u v hw hp]
      obtain ⟨t, ht, hev, hj⟩ := forward_spec c (jBudget j0) (budget j0)
      cases hx : (forward_with_progress c (jBudget j0) (budget j0)).2.2 with
      | some e =>
        left
        refine ⟨t, e, ht, ?_⟩
        simp only [hev, hj, loopJob, loopEvs]
      | none =>
        cases hs : c.save with
        | error e =>
          left
          refine ⟨t, e, ht, ?_⟩
          simp only [hev, hj, loopJob, loopEvs]
        | ok w =>
          right
          refine ⟨t, ht, ?_⟩
          simp only [hev, hj, loopJob, loopEvs]

/-! ### Lemmas: progress values and trace shape -/

lemma pv_nonneg (m k : ℕ) : 0 ≤ ((k : ℚ) + 1) / (m : ℚ) := by positivity

lemma pv_mono (m : ℕ) {a b : ℕ} (h : a ≤ b) :
    ((a : ℚ) + 1) / (m : ℚ) ≤ ((b : ℚ) + 1) / (m : ℚ) := by
  refine div_le_div_of_nonneg_right ?_ (by positivity)
  have : (a : ℚ) ≤ (b : ℚ) := by exact_mod_cast h
  linarith

lemma pv_le_one (m k : ℕ) (h : k < m) : ((k : ℚ) + 1) / (m : ℚ) ≤ 1 := by
  have hm : 0 < (m : ℚ) := by
    have : 0 < m := Nat.pos_of_ne_zero (by omega)
    exact_mod_cast this
  rw [div_le_one hm]
  have : (k : ℚ) + 1 ≤ (m : ℚ) := by exact_mod_cast h
  linarith

/-- The concatenated progress sequence of a full run is non-decreasing,
given that the final value dominates every loop value. -/
lemma sorted_vals (m t : ℕ) (fin : ℚ)
    (hfin : ∀ k, k < t → ((k : ℚ) + 1) / (m : ℚ) ≤ fin) (h0 : 0 ≤ fin) :
    List.Pairwise (fun a b => a ≤ b)
      ([(0 : ℚ), 0] ++ (List.range' 0 t).map (fun k : ℕ => ((k : ℚ) + 1) / (m : ℚ))
        ++ [fin]) := by
  refine List.pairwise_append.2 ⟨?_, ?_, ?_⟩
  · refine List.pairwise_append.2 ⟨?_, ?_, ?_⟩
    · simp
    · refine List.Pairwise.map _ ?_ (List.pairwise_lt_range' 0 t)
      intro a b hab
      exact pv_mono m (Nat.le_of_lt hab)
    · intro x hx y hy
      obtain ⟨k, hk, rfl⟩ := List.mem_map.1 hy
      have hx0 : x = 0 := by simpa using hx
      rw [hx0]
      exact pv_nonneg m k
  · simp
  · intro x hx y hy
    have hy' : y = fin := by simpa using hy
    subst hy'
    rcases List.mem_append.1 hx with h | h
    · have hx0 : x = 0 := by simpa using h
      rw [hx0]
      exact h0
    · obtain ⟨k, hk, rfl⟩ := List.mem_map.1 h
      have hkt : k < t := by
        have := List.mem_range'_1.1 hk
        omega
      exact hfin k hkt

lemma progressValues_append (a b : List Event) :
    progressValues (a ++ b) = progressValues a ++ progressValues b :=
  List.filterMap_append a b _

lemma progressValues_preEvs (j0 : GenerationJob) :
    progressValues (preEvs j0) = [j0.progress, j0.progress] := rfl

lemma progressValues_notify_map (f : ℕ → GenerationJob) (l : List ℕ) :
    progressValues (l.map (fun k => Event.notify (f k))) =
      l.map (fun k => (f k).progress) := by
  induction l with
  | nil => rfl
  | cons a l ih =>
    simp only [List.map_cons]
    rw [show progressValues
        (Event.notify (f a) :: List.map (fun k => Event.notify (f k)) l) =
      (f a).progress ::
        progressValues (List.map (fun k => Event.notify (f k)) l) from rfl, ih]

lemma progressValues_loopEvs (j0 : GenerationJob) (t : ℕ) :
    progressValues (loopEvs j0 t) =
      (List.range' 0 t).map (fun k : ℕ => ((k : ℚ) + 1) / (budget j0 : ℚ)) := by
  unfold loopEvs
  rw [progressValues_notify_map]
  rfl

lemma progressValues_failRes (j0 core : GenerationJob) (evs : List Event)
    (e : String) :
    progressValues (failRes j0 core evs e).trace =
      [j0.progress, j0.progress] ++ progressValues evs ++ [core.progress] := by
  unfold failRes
  rw [progressValues_append, progressValues_append, progressValues_preEvs]
  rfl

lemma progressValues_doneRes (j0 core : GenerationJob) (evs : List Event) :
    progressValues (doneRes j0 core evs).trace =
      [j0.progress, j0.progress] ++ progressValues evs ++ [1] := by
  unfold doneRes
  rw [progressValues_append, progressValues_append, progressValues_preEvs]
  rfl

lemma mem_notify_failRes {j0 core : GenerationJob} {evs : List Event}
    {e : String} {s : GenerationJob} :
    Event.notify s ∈ (failRes j0 core evs e).trace ↔
      s = jAfterLoad j0 ∨ s = jAfterGen j0 ∨ Event.notify s ∈ evs ∨
        s = jFail core e := by
  simp [failRes, preEvs, List.mem_append, or_assoc]

lemma mem_notify_doneRes {j0 core : GenerationJob} {evs : List Event}
    {s : GenerationJob} :
    Event.notify s ∈ (doneRes j0 core evs).trace ↔
      s = jAfterLoad j0 ∨ s = jAfterGen j0 ∨ Event.notify s ∈ evs ∨
        s = jDone core j0.job_id := by
  simp [doneRes, preEvs, List.mem_append, or_assoc]

lemma mem_notify_loopEvs {j0 : GenerationJob} {t : ℕ} {s : GenerationJob} :
    Event.notify s ∈ loopEvs j0 t ↔
      ∃ k, k < t ∧ s = stepJob (jBudget j0) (budget j0) k := by
  simp only [loopEvs, List.mem_map, List.mem_range'_1]
  constructor
  · rintro ⟨k, hk, he⟩
    exact ⟨k, by omega, by injection he with h; exact h.symm⟩
  · rintro ⟨k, hk, rfl⟩
    exact ⟨k, by omega, rfl⟩

lemma release_not_mem_loopEvs (j0 : GenerationJob) (t : ℕ) :
    Event.release ∉ loopEvs j0 t := by
  simp [loopEvs, List.mem_map]

lemma loopJob_status (j0 : GenerationJob) (t : ℕ) :
    (loopJob j0 t).status = JobStatus.generating := by
  unfold loopJob
  split <;> rfl

lemma loopJob_output (j0 : GenerationJob) (t : ℕ) :
    (loopJob j0 t).output_path = j0.output_path := by
  unfold loopJob
  split <;> rfl

lemma loopJob_err (j0 : GenerationJob) (t : ℕ) :
    (loopJob j0 t).error = j0.error := by
  unfold loopJob
  split <;> rfl

lemma loopJob_progress_zero (j0 : GenerationJob) :
    (loopJob j0 0).progress = j0.progress := rfl

lemma loopJob_progress_succ (j0 : GenerationJob) (n : ℕ) :
    (loopJob j0 (n + 1)).progress = ((n : ℚ) + 1) / (budget j0 : ℚ) := rfl

/-! ## Claim theorems -/

/-- C3: on every terminal path (both COMPLETED and FAILED) the executor
performs the admission release exactly once, as the very last event, after
the terminal status has been recorded and after the terminal notification
has been delivered to observers. -/
theorem release_once_after_terminal_notify (c : Collaborator)
    (j0 : GenerationJob)
    (h : (generate_with_progress c j0).job.status.isTerminal = true) :
    ∃ tr, (generate_with_progress c j0).trace =
        tr ++ [Event.setStatus (generate_with_progress c j0).job.status,
               Event.notify (generate_with_progress c j0).job, Event.release] ∧
      Event.release ∉ tr := by
  rcases gen_spec c j0 with ⟨e, hE⟩ | ⟨e, hE⟩ | ⟨t, e, ht, hE⟩ | ⟨t, ht, hE⟩
  · rw [hE] at h
    simp [jAfterLoad, JobStatus.isTerminal] at h
  · refine ⟨preEvs j0 ++ [], ?_, ?_⟩
    · rw [hE]
      simp [failRes, jFail]
    · simp [preEvs]
  · refine ⟨preEvs j0 ++ loopEvs j0 t, ?_, ?_⟩
    · rw [hE]
      simp [failRes, jFail]
    · intro hmem
      rcases List.mem_append.1 hmem with hm | hm
      · simp [preEvs] at hm
      · exact release_not_mem_loopEvs j0 t hm
  · refine ⟨preEvs j0 ++ loopEvs j0 t, ?_, ?_⟩
    · rw [hE]
      simp [doneRes, jDone]
    · intro hmem
      rcases List.mem_append.1 hmem with hm | hm
      · simp [preEvs] at hm
      · exact release_not_mem_loopEvs j0 t hm

/-- C3 witness: a concrete terminal run (immediate end-of-sequence on a
one-frame budget) instantiating the release-ordering theorem. -/
theorem release_once_after_terminal_notify_witness :
    ∃ tr, (generate_with_progress (eosAt 0) tinyJob).trace =
        tr ++ [Event.setStatus (generate_with_progress (eosAt 0) tinyJob).job.status,
               Event.notify (generate_with_progress (eosAt 0) tinyJob).job,
               Event.release] ∧
      Event.release ∉ tr :=
  release_once_after_terminal_notify (eosAt 0) tinyJob (by decide)

/-- C2 (code bug): when warm-up (`load_pipeline`) raises, the executor does
NOT drive the job to FAILED: the exception escapes, the job stays in
LOADING with no error recorded and no output, and the admission slot is
never released. -/
theorem warm_up_error_never_reaches_failed :
    (generate_with_progress warmErrCollab tinyJob).job.status = JobStatus.loading ∧
    (generate_with_progress warmErrCollab tinyJob).job.error = none ∧
    (generate_with_progress warmErrCollab tinyJob).job.output_path = none ∧
    (generate_with_progress warmErrCollab tinyJob).escaped = some "boom" ∧
    Event.release ∉ (generate_with_progress warmErrCollab tinyJob).trace ∧
    Event.setStatus JobStatus.failed ∉
      (generate_with_progress warmErrCollab tinyJob).trace := by
  refine ⟨rfl, rfl, rfl, rfl, ?_, ?_⟩ <;> decide

set_option maxRecDepth 40000 in
/-- C7: with `max_duration_ms = 80000` the resolved frame budget is exactly
1000; a collaborator signalling end-of-sequence at unit 500 stops the loop
early as a success: final `current_frame = 500`, status COMPLETED,
`progress = 1` after the completion normalization, no error. -/
theorem eos_scenario_80000ms :
    (generate_with_progress (eosAt 500) c7Job).job.total_frames = 1000 ∧
    (generate_with_progress (eosAt 500) c7Job).job.current_frame = 500 ∧
    (generate_with_progress (eosAt 500) c7Job).job.status = JobStatus.completed ∧
    (generate_with_progress (eosAt 500) c7Job).job.progress = 1 ∧
    (generate_with_progress (eosAt 500) c7Job).job.error = none := by
  refine ⟨?_, ?_, ?_, ?_, ?_⟩ <;> decide

/-- C5: for every job created by `create_job` and executed, exactly one of
{output location, error} is set at a terminal status (output on COMPLETED,
error on FAILED), and neither is set at any non-terminal status, whether in
the final state or in any notified snapshot. -/
theorem result_fields_exclusive (c : Collaborator) (id ly tg : String)
    (tmp : ℚ) (tk : ℕ) (cs : ℚ) (mx : ℕ) :
    ((generate_with_progress c (create_job id ly tg tmp tk cs mx)).job.status =
          JobStatus.completed →
        (generate_with_progress c (create_job id ly tg tmp tk cs mx)).job.output_path.isSome
            = true ∧
        (generate_with_progress c (create_job id ly tg tmp tk cs mx)).job.error = none) ∧
    ((generate_with_progress c (create_job id ly tg tmp tk cs mx)).job.status =
          JobStatus.failed →
        (generate_with_progress c (create_job id ly tg tmp tk cs mx)).job.error.isSome
            = true ∧
        (generate_with_progress c (create_job id ly tg tmp tk cs mx)).job.output_path
            = none) ∧
    ((generate_with_progress c (create_job id ly tg tmp tk cs mx)).job.status.isTerminal
          = false →
        (generate_with_progress c (create_job id ly tg tmp tk cs mx)).job.output_path
            = none ∧
        (generate_with_progress c (create_job id ly tg tmp tk cs mx)).job.error = none) ∧
    (∀ s, Event.notify s ∈
          (generate_with_progress c (create_job id ly tg tmp tk cs mx)).trace →
        s.status.isTerminal = false → s.output_path = none ∧ s.error = none) := by
  rcases gen_spec c (create_job id ly tg tmp tk cs mx) with
    ⟨e, hE⟩ | ⟨e, hE⟩ | ⟨t, e, ht, hE⟩ | ⟨t, ht, hE⟩ <;> rw [hE]
  · refine ⟨?_, ?_, ?_, ?_⟩
    · intro hst
      simp [jAfterLoad, create_job] at hst
    · intro hst
      simp [jAfterLoad, create_job] at hst
    · intro _
      simp [jAfterLoad, create_job]
    · intro s hs hterm
      have hsl : s = jAfterLoad (create_job id ly tg tmp tk cs mx) := by
        simpa using hs
      rw [hsl]
      simp [jAfterLoad, create_job]
  · refine ⟨?_, ?_, ?_, ?_⟩
    · intro hst
      simp [failRes, jFail] at hst
    · intro _
      simp [failRes, jFail, jAfterGen, jAfterLoad, create_job]
    · intro hst
      simp [failRes, jFail, JobStatus.isTerminal] at hst
    · intro s hs hterm
      rcases mem_notify_failRes.1 hs with rfl | rfl | hm | rfl
      · simp [jAfterLoad, create_job]
      · simp [jAfterGen, jAfterLoad, create_job]
      · simp at hm
      · simp [jFail, JobStatus.isTerminal] at hterm
  · refine ⟨?_, ?_, ?_, ?_⟩
    · intro hst
      simp [failRes, jFail] at hst
    · intro _
      refine ⟨by simp [failRes, jFail], ?_⟩
      simp [failRes, jFail, loopJob_output, create_job]
    · intro hst
      simp [failRes, jFail, JobStatus.isTerminal] at hst
    · intro s hs hterm
      rcases mem_notify_failRes.1 hs with rfl | rfl | hm | rfl
      · simp [jAfterLoad, create_job]
      · simp [jAfterGen, jAfterLoad, create_job]
      · obtain ⟨k, hk, rfl⟩ := mem_notify_loopEvs.1 hm
        simp [stepJob, jBudget, jAfterGen, jAfterLoad, create_job]
      · simp [jFail, JobStatus.isTerminal] at hterm
  · refine ⟨?_, ?_, ?_, ?_⟩
    · intro _
      refine ⟨by simp [doneRes, jDone], ?_⟩
      simp [doneRes, jDone, loopJob_err, create_job]
    · intro hst
      simp [doneRes, jDone] at hst
    · intro hst
      simp [doneRes, jDone, JobStatus.isTerminal] at hst
    · intro s hs hterm
      rcases mem_notify_doneRes.1 hs with rfl | rfl | hm | rfl
      · simp [jAfterLoad, create_job]
      · simp [jAfterGen, jAfterLoad, create_job]
      · obtain ⟨k, hk, rfl⟩ := mem_notify_loopEvs.1 hm
        simp [stepJob, jBudget, jAfterGen, jAfterLoad, create_job]
      · simp [jDone, JobStatus.isTerminal] at hterm

/-- C5 witness: a concrete completed run has its output location set and no
error, and its loading-phase snapshot carries neither result field. -/
theorem result_fields_exclusive_witness :
    ((generate_with_progress (eosAt 0) (create_job "j-tiny" "" "" 1 50 (3 / 2) 80)).job.output_path.isSome
        = true ∧
     (generate_with_progress (eosAt 0) (create_job "j-tiny" "" "" 1 50 (3 / 2) 80)).job.error
        = none) ∧
    ((jAfterLoad (create_job "j-tiny" "" "" 1 50 (3 / 2) 80)).output_path = none ∧
     (jAfterLoad (create_job "j-tiny" "" "" 1 50 (3 / 2) 80)).error = none) :=
  ⟨(result_fields_exclusive (eosAt 0) "j-tiny" "" "" 1 50 (3 / 2) 80).1 (by decide),
   (result_fields_exclusive (eosAt 0) "j-tiny" "" "" 1 50 (3 / 2) 80).2.2.2
     (jAfterLoad (create_job "j-tiny" "" "" 1 50 (3 / 2) 80))
     (List.mem_cons_of_mem _ (List.mem_cons_self _ _)) (by decide)⟩

/-- C6: over any execution of a freshly created job, the sequence of
notified `progress` values is monotonically non-decreasing; every snapshot
notified before the generating phase (QUEUED or LOADING status) carries
`progress = 0`; every notified snapshot with COMPLETED status carries
`progress = 1`; and the final state of a COMPLETED job has `progress = 1`
(including early end-of-sequence completions). -/
theorem progress_monotone_zero_before_one_at_completed (c : Collaborator)
    (id ly tg : String) (tmp : ℚ) (tk : ℕ) (cs : ℚ) (mx : ℕ) :
    List.Pairwise (fun a b => a ≤ b)
      (progressValues
        (generate_with_progress c (create_job id ly tg tmp tk cs mx)).trace) ∧
    (∀ s, Event.notify s ∈
          (generate_with_progress c (create_job id ly tg tmp tk cs mx)).trace →
        (s.status = JobStatus.queued ∨ s.status = JobStatus.loading) →
        s.progress = 0) ∧
    (∀ s, Event.notify s ∈
          (generate_with_progress c (create_job id ly tg tmp tk cs mx)).trace →
        s.status = JobStatus.completed → s.progress = 1) ∧
    ((generate_with_progress c (create_job id ly tg tmp tk cs mx)).job.status =
          JobStatus.completed →
      (generate_with_progress c (create_job id ly tg tmp tk cs mx)).job.progress
          = 1) := by
  rcases gen_spec c (create_job id ly tg tmp tk cs mx) with
    ⟨e, hE⟩ | ⟨e, hE⟩ | ⟨t, e, ht, hE⟩ | ⟨t, ht, hE⟩ <;> rw [hE]
  · refine ⟨?_, ?_, ?_, ?_⟩
    · simp [progressValues, jAfterLoad, create_job]
    · intro s hs _
      have hsl : s = jAfterLoad (create_job id ly tg tmp tk cs mx) := by
        simpa using hs
      rw [hsl]
      simp [jAfterLoad, create_job]
    · intro s hs hst
      have hsl : s = jAfterLoad (create_job id ly tg tmp tk cs mx) := by
        simpa using hs
      rw [hsl] at hst
      simp [jAfterLoad, create_job] at hst
    · intro hst
      simp [jAfterLoad, create_job] at hst
  · refine ⟨?_, ?_, ?_, ?_⟩
    · rw [progressValues_failRes]
      simp [create_job, jAfterGen, jAfterLoad, progressValues, List.pairwise_cons]
    · intro s hs _
      rcases mem_notify_failRes.1 hs with rfl | rfl | hm | rfl
      · simp [jAfterLoad, create_job]
      · simp [jAfterGen, jAfterLoad, create_job]
      · simp at hm
      · simp [jFail, jAfterGen, jAfterLoad, create_job]
    · intro s hs hst
      rcases mem_notify_failRes.1 hs with rfl | rfl | hm | rfl
      · simp [jAfterLoad, create_job] at hst
      · simp [jAfterGen, jAfterLoad, create_job] at hst
      · simp at hm
      · simp [jFail, jAfterGen, jAfterLoad, create_job] at hst
    · intro hst
      simp [failRes, jFail] at hst
  · refine ⟨?_, ?_, ?_, ?_⟩
    · rw [progressValues_failRes, progressValues_loopEvs]
      have hpj : (jFail (loopJob (create_job id ly tg tmp tk cs mx) t) e).progress
          = (loopJob (create_job id ly tg tmp tk cs mx) t).progress := rfl
      have hc0 : (create_job id ly tg tmp tk cs mx).progress = 0 := rfl
      rw [hc0]
      cases t with
      | zero =>
        rw [loopJob_progress_zero, hc0]
        exact sorted_vals _ 0 0 (by intro k hk; omega) le_rfl
      | succ n =>
        rw [loopJob_progress_succ]
        refine sorted_vals _ (n + 1) _ ?_ (pv_nonneg _ n)
        intro k hk
        exact pv_mono _ (by omega)
    · intro s hs hqs
      rcases mem_notify_failRes.1 hs with rfl | rfl | hm | rfl
      · simp [jAfterLoad, create_job]
      · simp [jAfterGen, jAfterLoad, create_job] at hqs
      · obtain ⟨k, hk, rfl⟩ := mem_notify_loopEvs.1 hm
        simp [stepJob, jBudget, jAfterGen, jAfterLoad, create_job] at hqs
      · simp [jFail] at hqs
    · intro s hs hst
      rcases mem_notify_failRes.1 hs with rfl | rfl | hm | rfl
      · simp [jAfterLoad, create_job] at hst
      · simp [jAfterGen, jAfterLoad, create_job] at hst
      · obtain ⟨k, hk, rfl⟩ := mem_notify_loopEvs.1 hm
        simp [stepJob, jBudget, jAfterGen, jAfterLoad, create_job] at hst
      · simp [jFail] at hst
    · intro hst
      simp [failRes, jFail] at hst
  · refine ⟨?_, ?_, ?_, ?_⟩
    · rw [progressValues_doneRes, progressValues_loopEvs]
      have hc0 : (create_job id ly tg tmp tk cs mx).progress = 0 := rfl
      rw [hc0]
      refine sorted_vals _ t 1 ?_ (by norm_num)
      intro k hk
      exact pv_le_one _ k (by omega)
    · intro s hs hqs
      rcases mem_notify_doneRes.1 hs with rfl | rfl | hm | rfl
      · simp [jAfterLoad, create_job]
      · simp [jAfterGen, jAfterLoad, create_job] at hqs
      · obtain ⟨k, hk, rfl⟩ := mem_notify_loopEvs.1 hm
        simp [stepJob, jBudget, jAfterGen, jAfterLoad, create_job] at hqs
      · simp [jDone] at hqs
    · intro s hs hst
      rcases mem_notify_doneRes.1 hs with rfl | rfl | hm | rfl
      · simp [jAfterLoad, create_job] at hst
      · simp [jAfterGen, jAfterLoad, create_job] at hst
      · obtain ⟨k, hk, rfl⟩ := mem_notify_loopEvs.1 hm
        simp [stepJob, jBudget, jAfterGen, jAfterLoad, create_job] at hst
      · simp [jDone]
    · intro _
      simp [doneRes, jDone]

set_option maxRecDepth 40000 in
/-- C6 witness: the end-of-sequence scenario run instantiates the
monotonicity statement, and its COMPLETED final progress is exactly 1. -/
theorem progress_monotone_witness :
    (generate_with_progress (eosAt 500)
        (create_job "j-eos" "" "" 1 50 (3 / 2) 80000)).job.progress = 1 :=
  (progress_monotone_zero_before_one_at_completed (eosAt 500)
      "j-eos" "" "" 1 50 (3 / 2) 80000).2.2.2 (by decide)

/-- C1 counterexample: in the interleaving where both router checks run
before either background task, request A acquires the slot while request B
receives a SUCCESS response (not the 429 capacity error), its job is
created, and its background task fails with the RuntimeError. -/
theorem admission_loser_not_given_capacity_error :
    (gateRun bothRoutersFirst gateInit).reqA.outcome = some true ∧
    (gateRun bothRoutersFirst gateInit).reqB.outcome = some false ∧
    (gateRun bothRoutersFirst gateInit).reqB.resp = some true ∧
    (gateRun bothRoutersFirst gateInit).reqB.resp ≠ some false ∧
    (gateRun bothRoutersFirst gateInit).reqB.jobCreated = true := by
  refine ⟨?_, ?_, ?_, ?_, ?_⟩ <;> decide

/-- C1 (amended): under every interleaving of two concurrent creation
requests from an empty slot, at most one request ever sets the current-job
slot; and once both requests complete, exactly one holds the slot while the
other either received the 429 capacity error at the router (no job
created) or received a success response and was stopped by the
RuntimeError in its background task (its job left queued in the
registry). -/
theorem admission_at_most_one_acquires (ls : List GateLabel) :
    (¬((gateRun ls gateInit).reqA.outcome = some true ∧
       (gateRun ls gateInit).reqB.outcome = some true)) ∧
    (gateComplete (gateRun ls gateInit) →
      ((gateRun ls gateInit).reqA.outcome = some true ∧
         gateLoser (gateRun ls gateInit).reqB) ∨
      ((gateRun ls gateInit).reqB.outcome = some true ∧
         gateLoser (gateRun ls gateInit).reqA)) := by
  have hInv := gateInv_run ls gateInit gateInv_init
  exact ⟨gate_at_most_one _ hInv, fun hc => gate_final _ hInv hc⟩

/-- C1 witness: the both-routers-first interleaving completes and the
amended theorem decides a winner and a loser for it. -/
theorem admission_at_most_one_acquires_witness :
    ((gateRun bothRoutersFirst gateInit).reqA.outcome = some true ∧
       gateLoser (gateRun bothRoutersFirst gateInit).reqB) ∨
    ((gateRun bothRoutersFirst gateInit).reqB.outcome = some true ∧
       gateLoser (gateRun bothRoutersFirst gateInit).reqA) :=
  (admission_at_most_one_acquires bothRoutersFirst).2 (by decide)

/-- C4: a creation request arriving while the admission slot is occupied is
rejected with the 429 capacity error and the whole service state — in
particular the job registry — is returned unchanged; no job is constructed
or stored. -/
theorem occupied_slot_rejects_unchanged (st : ServiceState)
    (newId ly tg : String) (tmp : ℚ) (tk : ℕ) (cs : ℚ) (mx : ℕ) (j : String)
    (h : st.current_job = some j) :
    start_generation_route st newId ly tg tmp tk cs mx =
      (st, Except.error 429) := by
  unfold start_generation_route
  simp [h]

/-- C4 witness: a concrete occupied state rejects a concrete request with
429 and an unchanged state. -/
theorem occupied_slot_rejects_unchanged_witness :
    start_generation_route ⟨[], some "busy"⟩ "n" "" "" 1 50 (3 / 2) 240000 =
      (⟨[], some "busy"⟩, Except.error 429) :=
  occupied_slot_rejects_unchanged ⟨[], some "busy"⟩ "n" "" "" 1 50 (3 / 2)
    240000 "busy" rfl

/-- C8 counterexample: one observer is already registered for job
`"watch"` (subscriber count 1); a bridge connection registers its own
observer and then closes by client disconnect; afterwards the subscriber
count is 0, not the pre-connection value 1 — the close removed the other
observer too. -/
theorem stream_close_drops_other_observers :
    subscriberCount oneWatcher "watch" = 1 ∧
    stream_progress fixtureJobs oneWatcher "watch" cbBoom [] =
      Except.ok
        ([SSEvent.data (job_to_dict (create_job "watch" "" "" 1 50 (3 / 2) 240000))],
         unregister_progress_callbacks
           (register_progress_callback oneWatcher "watch" cbBoom) "watch") ∧
    subscriberCount
      (unregister_progress_callbacks
        (register_progress_callback oneWatcher "watch" cbBoom) "watch") "watch"
      = 0 := by
  refine ⟨rfl, rfl, rfl⟩

/-- C8 (amended): when a stream bridge's connection ends, ALL observers
registered for that job id are unregistered — the job's subscriber count
drops to zero rather than returning to its pre-connection value — while
observers registered for any other job id are untouched. -/
theorem stream_close_removes_all_observers
    (jobs : String → Option GenerationJob) (m : CallbackMap)
    (job_id k : String) (cb : Callback) (waits : List WaitOutcome)
    (evs : List SSEvent) (m2 : CallbackMap)
    (hok : stream_progress jobs m job_id cb waits = Except.ok (evs, m2))
    (hk : k ≠ job_id) :
    subscriberCount m2 job_id = 0 ∧ m2 k = m k := by
  unfold stream_progress at hok
  cases hj : jobs job_id with
  | none =>
    rw [hj] at hok
    simp at hok
  | some job =>
    rw [hj] at hok
    dsimp only at hok
    have hm2 : m2 =
        unregister_progress_callbacks
          (register_progress_callback m job_id cb) job_id := by
      split_ifs at hok with hterm <;>
        exact (congrArg (fun p => p.2) (Except.ok.inj hok)).symm
    subst hm2
    constructor
    · simp [subscriberCount, unregister_progress_callbacks]
    · simp [unregister_progress_callbacks, register_progress_callback, hk]

/-- C8 witness: the amended theorem instantiated at the concrete
counterexample connection, showing count zero afterwards and an unrelated
job id untouched. -/
theorem stream_close_removes_all_observers_witness :
    subscriberCount
      (unregister_progress_callbacks
        (register_progress_callback oneWatcher "watch" cbBoom) "watch") "watch"
      = 0 ∧
    (unregister_progress_callbacks
      (register_progress_callback oneWatcher "watch" cbBoom) "watch") "done" =
        oneWatcher "done" :=
  stream_close_removes_all_observers fixtureJobs oneWatcher "watch" "done"
    cbBoom []
    [SSEvent.data (job_to_dict (create_job "watch" "" "" 1 50 (3 / 2) 240000))]
    (unregister_progress_callbacks
      (register_progress_callback oneWatcher "watch" cbBoom) "watch")
    rfl (by decide)

/-- C9: a stream opened against an unknown job id fails with 404 before
emitting any event; a stream opened against a job already in a terminal
state emits exactly one event — the terminal snapshot — and closes. -/
theorem stream_unknown_404_terminal_one_event :
    (∀ (jobs : String → Option GenerationJob) (m : CallbackMap)
        (job_id : String) (cb : Callback) (waits : List WaitOutcome),
      jobs job_id = none →
        stream_progress jobs m job_id cb waits = Except.error 404) ∧
    (∀ (jobs : String → Option GenerationJob) (m : CallbackMap)
        (job_id : String) (cb : Callback) (waits : List WaitOutcome)
        (job : GenerationJob),
      jobs job_id = some job → job.status.isTerminal = true →
        stream_progress jobs m job_id cb waits =
          Except.ok ([SSEvent.data (job_to_dict job)],
            unregister_progress_callbacks
              (register_progress_callback m job_id cb) job_id)) := by
  constructor
  · intro jobs m job_id cb waits h
    simp [stream_progress, h]
  · intro jobs m job_id cb waits job hj hterm
    simp [stream_progress, hj, hterm]

/-- C9 witness: a concrete unknown id yields 404 and a concrete completed
job yields exactly its terminal snapshot. -/
theorem stream_unknown_404_terminal_one_event_witness :
    stream_progress fixtureJobs oneWatcher "nope" cbOk [] = Except.error 404 ∧
    stream_progress fixtureJobs oneWatcher "done" cbOk [] =
      Except.ok ([SSEvent.data (job_to_dict doneJob)],
        unregister_progress_callbacks
          (register_progress_callback oneWatcher "done" cbOk) "done") :=
  ⟨stream_unknown_404_terminal_one_event.1 fixtureJobs oneWatcher "nope" cbOk []
     rfl,
   stream_unknown_404_terminal_one_event.2 fixtureJobs oneWatcher "done" cbOk []
     doneJob rfl rfl⟩

/-- C10: notification delivery is isolated per observer: the notifier
returns normally with one outcome per registered callback; the outcome at
each position is exactly that callback's own delivery, independent of every
other callback; and a raising callback's exception is caught and discarded
(its delivery becomes `none`) without affecting the others. -/
theorem notify_isolates_observer_failures
    (jobs : String → Option GenerationJob) (m : CallbackMap) (job_id : String)
    (job : GenerationJob) (h : jobs job_id = some job) :
    (notify_progress jobs m job_id).length = (m job_id).length ∧
    (∀ k : ℕ, (notify_progress jobs m job_id)[k]? =
      ((m job_id)[k]?).map (fun cb => notifyOne job cb)) ∧
    (∀ cb : Callback, ∀ e, cb job = Except.error e → notifyOne job cb = none) := by
  refine ⟨?_, ?_, ?_⟩
  · simp [notify_progress, h]
  · intro k
    simp [notify_progress, h]
  · intro cb e hcb
    simp [notifyOne, hcb]

/-- C10 witness: with a raising observer registered before a succeeding
one, the raising observer's delivery is discarded while the succeeding
observer still receives the snapshot. -/
theorem notify_isolates_observer_failures_witness :
    (notify_progress fixtureJobs twoObservers "watch")[0]? = some none ∧
    (notify_progress fixtureJobs twoObservers "watch")[1]? =
      some (some "watch") := by
  have h := notify_isolates_observer_failures fixtureJobs twoObservers "watch"
    (create_job "watch" "" "" 1 50 (3 / 2) 240000) rfl
  constructor
  · rw [h.2.1 0]
    rfl
  · rw [h.2.1 1]
    rfl

end Heartlib
